import Mathlib

/-
  Verification development for the iseehalo-web billing-status
  synchronization service (server.js, its later revisions, and the
  unnamed server variant).

  Shallow embedding conventions:
  * A JS object field that can be null/undefined is an Option.
  * The local cache (db.json "users" object) is an association list
    List (String × UserRecord); JS object semantics are modelled by
    first-match lookup and replace-in-place-or-append update.
  * Timestamps are epoch milliseconds (Int); the code stores
    new Date(ms).toISOString(), an injective presentation of the
    same instant, so equalities between stored timestamps are
    preserved by working with the millisecond value.
  * JSON.parse and stripe.webhooks.constructEvent are external,
    possibly-failing operations, modelled as explicit function
    arguments returning Option; a thrown exception is none.
-/

set_option autoImplicit false

namespace IseehaloWeb

/-- One user record of the billing store (fields of the default record
created by updateUser in the first revision of server.js, plus the
grace_until field written by the invoice.payment_failed branch). -/
structure UserRecord where
  email : String
  is_premium : Bool
  current_period_end : Option Int
  stripe_customer_id : Option String
  stripe_subscription_id : Option String
  grace_until : Option Int
  deriving Repr, DecidableEq

/-- A partial update as passed to updateUser: a field that is none is
not named by the patch; a field that is some v overwrites with v
(which may itself be null, i.e. some none). -/
structure Patch where
  email : Option String := none
  is_premium : Option Bool := none
  current_period_end : Option (Option Int) := none
  stripe_customer_id : Option (Option String) := none
  stripe_subscription_id : Option (Option String) := none
  grace_until : Option (Option Int) := none
  deriving Repr, DecidableEq

/-- The users map of db.json, as an association list keyed by email. -/
abbrev DB := List (String × UserRecord)

/-- Spread-merge of a patch onto a record, as in
db.users[email] = \x7b ...current, ...patch \x7d. -/
def applyPatch (r : UserRecord) (p : Patch) : UserRecord where
  email := p.email.getD r.email
  is_premium := p.is_premium.getD r.is_premium
  current_period_end := p.current_period_end.getD r.current_period_end
  stripe_customer_id := p.stripe_customer_id.getD r.stripe_customer_id
  stripe_subscription_id := p.stripe_subscription_id.getD r.stripe_subscription_id
  grace_until := p.grace_until.getD r.grace_until

/-- db.users[email]: first entry with the given key. -/
def findUser (db : DB) (k : String) : Option UserRecord :=
  (db.find? (fun q => q.1 == k)).map Prod.snd

/-- db.users[email] = r: replace the entry in place when the key is
present, append it otherwise (JS object assignment semantics). -/
def setUser (db : DB) (k : String) (r : UserRecord) : DB :=
  if (db.find? (fun q => q.1 == k)).isSome then
    db.map (fun q => if q.1 == k then (k, r) else q)
  else
    db ++ [(k, r)]

/-- The default record created for a previously unknown identity
(first revision of server.js, updateUser). -/
def defaultUser (email : String) : UserRecord where
  email := email
  is_premium := false
  current_period_end := none
  stripe_customer_id := none
  stripe_subscription_id := none
  grace_until := none

/-- updateUser from the first revision of server.js: read the snapshot,
take the current record or the default, spread-merge the patch, store. -/
def updateUser (db : DB) (email : String) (p : Patch) : DB :=
  setUser db email (applyPatch ((findUser db email).getD (defaultUser email)) p)

/-- The premium-conferring status set of the first revision. -/
def premiumStatuses : List String := ["active", "trialing", "past_due"]

/-- statusIsPremium from server.js: membership in premiumStatuses. -/
def statusIsPremium (status : String) : Bool :=
  premiumStatuses.contains status

/-- The inline status mapping of the second-revision webhook handler:
["active", "trialing"].includes(subscription.status). -/
def inlineWebhookPremiumRev2 (status : String) : Bool :=
  (["active", "trialing"] : List String).contains status

/-- The inline status mapping of the third-revision webhook handler. -/
def inlineWebhookPremiumRev3 (status : String) : Bool :=
  (["active", "trialing"] : List String).contains status

/-- The inline status mapping of the unnamed server variant webhook. -/
def inlineWebhookPremiumPart0 (status : String) : Bool :=
  (["active", "trialing"] : List String).contains status

/-- The inline status mapping of the confirm-session route:
new Set(["active", "trialing", "past_due"]).has(subscription.status). -/
def confirmSessionPremium (status : String) : Bool :=
  (["active", "trialing", "past_due"] : List String).contains status

/-- The emptiness test of the first-revision readDB, not txt or not
txt.trim(): the text is empty or consists of whitespace only. -/
def blankText (txt : String) : Bool :=
  txt.data.all Char.isWhitespace

/-- readDB from the first revision: absent file, empty or
whitespace-only text, or a failing parse all yield the empty snapshot;
parse models JSON.parse followed by taking the users field, returning
none when JSON.parse throws. -/
def readDB (file : Option String) (parse : String → Option DB) : DB :=
  match file with
  | none => []
  | some txt =>
    if blankText txt then []
    else
      match parse txt with
      | none => []
      | some d => d

/-- readDB from the second revision: return txt ? JSON.parse(txt) :
empty, with the whole body in a try/catch returning the empty
snapshot on any throw. -/
def readDBRev2 (file : Option String) (parse : String → Option DB) : DB :=
  match file with
  | none => []
  | some txt =>
    if txt = "" then []
    else
      match parse txt with
      | none => []
      | some d => d

/-- JS truthiness coercion for an optional string: null, undefined and
the empty string are falsy. -/
def jsStr (a : Option String) : Option String :=
  match a with
  | some s => if s = "" then none else some s
  | none => none

/-- JS a || b || null over optional strings. -/
def jsOr (a b : Option String) : Option String :=
  match jsStr a with
  | some s => some s
  | none => jsStr b

/-- The fields of event.data.object accessed by the webhook branches
across the revisions. -/
structure EventObject where
  customer_details_email : Option String := none
  client_reference_id : Option String := none
  metadata_user_email : Option String := none
  customer : Option String := none
  subscription : Option String := none
  obj_id : Option String := none
  status : Option String := none
  current_period_end : Option Int := none
  deriving Repr, DecidableEq

/-- The shared shape of app.post webhook in all revisions: run
constructEvent over the signature header and the raw body first; a
throw (none) answers 400 at once, otherwise the verified event goes to
the event dispatcher. The state type σ stands for everything the
dispatcher could write (local cache file and authoritative store
alike); E is the verified event type. -/
def webhookPost {σ E : Type} (constructEvent : Option String → String → Option E)
    (dispatch : E → σ → Nat × σ) (sig : Option String) (body : String)
    (s : σ) : Nat × σ :=
  match constructEvent sig body with
  | none => (400, s)
  | some ev => dispatch ev s

/-- Reverse lookup of the first-revision webhook branches:
Object.keys(db.users).find(e implies db.users[e].stripe_customer_id ===
customerId). -/
def reverseLookupEmail (db : DB) (customerId : Option String) : Option String :=
  (db.find? (fun q => q.2.stripe_customer_id == customerId)).map Prod.fst

/-- Identity resolution of the first-revision checkout.session.completed
branch: (obj.customer_details and its email) or obj.client_reference_id
or null, then reverse lookup by the customer id. -/
def resolveCheckoutRev1 (db : DB) (o : EventObject) : Option String :=
  match jsOr o.customer_details_email o.client_reference_id with
  | some e => some e
  | none => reverseLookupEmail db o.customer

/-- Where an event update lands in the third revision and the unnamed
variant: the Supabase users row keyed by id, the row keyed by email, or
nowhere. -/
inductive UpdateTarget where
  | byId (mobileId : String)
  | byEmail (email : String)
  | unresolved
  deriving Repr, DecidableEq

/-- Identity resolution of the third-revision webhook: mobileId =
obj.client_reference_id checked for truthiness first; otherwise email =
obj.metadata user_email or obj.customer_details email. -/
def resolveRev3 (o : EventObject) : UpdateTarget :=
  match jsStr o.client_reference_id with
  | some m => UpdateTarget.byId m
  | none =>
    match jsOr o.metadata_user_email o.customer_details_email with
    | some e => UpdateTarget.byEmail e
    | none => UpdateTarget.unresolved

/-- Identity resolution of the unnamed variant webhook: same shape as
the third revision (mobileId first, then email). -/
def resolvePart0 (o : EventObject) : UpdateTarget :=
  match jsStr o.client_reference_id with
  | some m => UpdateTarget.byId m
  | none =>
    match jsOr o.metadata_user_email o.customer_details_email with
    | some e => UpdateTarget.byEmail e
    | none => UpdateTarget.unresolved

/-- The patch written by the first-revision customer.subscription.deleted
branch. -/
def deletedPatchRev1 : Patch where
  is_premium := some false
  current_period_end := some none
  stripe_subscription_id := some none

/-- The first-revision customer.subscription.deleted branch: reverse
lookup by customer id, then updateUser with deletedPatchRev1; an
unresolved event is dropped. -/
def subscriptionDeletedRev1 (db : DB) (o : EventObject) : DB :=
  match reverseLookupEmail db o.customer with
  | some email => updateUser db email deletedPatchRev1
  | none => db

/-- The patch written by the second-revision customer.subscription.deleted
branch: is_premium false and stripe_subscription_id null only. -/
def deletedPatchRev2 : Patch where
  is_premium := some false
  stripe_subscription_id := some none

/-- The second-revision webhook path for customer.subscription.deleted:
the email gate (obj.metadata user_email or obj.customer_details email)
runs first, then updateUser with deletedPatchRev2 on the local cache. -/
def webhookDeletedRev2 (db : DB) (o : EventObject) : DB :=
  match jsOr o.metadata_user_email o.customer_details_email with
  | some email => updateUser db email deletedPatchRev2
  | none => db

/-- The millisecond length of the grace window: 3 * 24 * 3600 * 1000. -/
def graceWindowMs : Int := 3 * 24 * 3600 * 1000

/-- The first-revision invoice.payment_failed branch: reverse lookup by
customer id, then updateUser with a patch naming only grace_until, set
to Date.now() plus the 3-day window. -/
def invoicePaymentFailedRev1 (db : DB) (o : EventObject) (now : Int) : DB :=
  match reverseLookupEmail db o.customer with
  | some email => updateUser db email { grace_until := some (some (now + graceWindowMs)) }
  | none => db

/-- The GET status route of the first revision: reject a missing email
query with 400, otherwise answer db.users[email] or null from the
readDB snapshot of the local file. -/
def statusHandler (emailQ : Option String) (file : Option String)
    (parse : String → Option DB) : Except Nat (Option UserRecord) :=
  match jsStr emailQ with
  | none => Except.error 400
  | some e => Except.ok (findUser (readDB file parse) e)

/-- A sequence of updateUser calls applied from the left, as the
webhook branches do across requests. -/
def applyOps (ops : List (String × Patch)) (db : DB) : DB :=
  ops.foldl (fun d op => updateUser d op.1 op.2) db

/-- Key-record consistency: every stored entry carries its own key in
the email field. -/
def keyConsistent (db : DB) : Prop := ∀ q ∈ db, q.2.email = q.1

/-! ### Algebra of the local cache update path -/

theorem optGetD_getD {α : Type} (o : Option α) (a : α) :
    o.getD (o.getD a) = o.getD a := by
  cases o <;> rfl

theorem applyPatch_idem (r : UserRecord) (p : Patch) :
    applyPatch (applyPatch r p) p = applyPatch r p := by
  simp [applyPatch, optGetD_getD]

theorem setUser_pos (db : DB) (k : String) (r : UserRecord)
    (h : (db.find? (fun q => q.1 == k)).isSome = true) :
    setUser db k r = db.map (fun q => if q.1 == k then (k, r) else q) := by
  simp [setUser, h]

theorem setUser_neg (db : DB) (k : String) (r : UserRecord)
    (h : db.find? (fun q => q.1 == k) = none) :
    setUser db k r = db ++ [(k, r)] := by
  simp [setUser, h]

theorem find?_map_replace (db : DB) (k : String) (r : UserRecord)
    (h : (db.find? (fun q => q.1 == k)).isSome = true) :
    (db.map (fun q => if q.1 == k then (k, r) else q)).find? (fun q => q.1 == k)
      = some (k, r) := by
  induction db with
  | nil => simp [List.find?] at h
  | cons a l ih =>
    by_cases ha : (a.1 == k) = true
    · have hhead : (if (a.1 == k) = true then ((k, r) : String × UserRecord) else a) = (k, r) :=
        if_pos ha
      simp only [List.map_cons, hhead]
      rw [List.find?_cons_of_pos]
      simp
    · have hhead : (if (a.1 == k) = true then ((k, r) : String × UserRecord) else a) = a :=
        if_neg ha
      simp only [List.map_cons, hhead]
      rw [List.find?_cons_of_neg _ (by simpa using ha)]
      apply ih
      rw [List.find?_cons_of_neg _ (by simpa using ha)] at h
      exact h

theorem findUser_setUser (db : DB) (k : String) (r : UserRecord) :
    findUser (setUser db k r) k = some r := by
  by_cases h : (db.find? (fun q => q.1 == k)).isSome = true
  · rw [findUser, setUser_pos db k r h, find?_map_replace db k r h]
    rfl
  · have hn : db.find? (fun q => q.1 == k) = none := by
      cases he : db.find? (fun q => q.1 == k) with
      | none => rfl
      | some q => rw [he] at h; simp at h
    rw [findUser, setUser_neg db k r hn, List.find?_append, hn]
    simp [List.find?]

theorem setUser_setUser (db : DB) (k : String) (r r' : UserRecord) :
    setUser (setUser db k r) k r' = setUser db k r' := by
  by_cases h : (db.find? (fun q => q.1 == k)).isSome = true
  · have h2 := find?_map_replace db k r h
    rw [setUser_pos db k r h, setUser_pos _ k r' (by rw [h2]; rfl), setUser_pos db k r' h,
      List.map_map]
    apply List.map_congr_left
    intro q _
    by_cases hq : (q.1 == k) = true
    · simp [Function.comp, hq]
    · simp [Function.comp, hq]
  · have hn : db.find? (fun q => q.1 == k) = none := by
      cases he : db.find? (fun q => q.1 == k) with
      | none => rfl
      | some q => rw [he] at h; simp at h
    have hfound : ((db ++ [(k, r)]).find? (fun q => q.1 == k)).isSome = true := by
      rw [List.find?_append, hn]
      simp [List.find?]
    rw [setUser_neg db k r hn, setUser_pos _ k r' hfound, setUser_neg db k r' hn,
      List.map_append]
    have h1 : db.map (fun q => if (q.1 == k) = true then ((k, r') : String × UserRecord) else q)
        = db := by
      have hall := List.find?_eq_none.mp hn
      calc db.map (fun q => if (q.1 == k) = true then ((k, r') : String × UserRecord) else q)
          = db.map id := by
            apply List.map_congr_left
            intro q hq
            simp [if_neg (by simpa using hall q hq)]
        _ = db := List.map_id db
    rw [h1]
    simp

/-- C6: applying updateUser twice with the same identity and the same
patch leaves exactly the store state produced by applying it once,
for every starting state and every patch. -/
theorem updateUser_idempotent (db : DB) (e : String) (p : Patch) :
    updateUser (updateUser db e p) e p = updateUser db e p := by
  unfold updateUser
  rw [findUser_setUser]
  simp only [Option.getD_some]
  rw [applyPatch_idem, setUser_setUser]

/-! ### Key-record consistency of the cache snapshot -/

theorem keyConsistent_setUser (db : DB) (k : String) (r : UserRecord)
    (hdb : keyConsistent db) (hr : r.email = k) : keyConsistent (setUser db k r) := by
  intro q hq
  unfold setUser at hq
  split at hq
  · obtain ⟨q0, hq0mem, hq0eq⟩ := List.mem_map.mp hq
    by_cases h0 : (q0.1 == k) = true
    · rw [if_pos h0] at hq0eq
      rw [← hq0eq]
      exact hr
    · rw [if_neg h0] at hq0eq
      rw [← hq0eq]
      exact hdb q0 hq0mem
  · rcases List.mem_append.mp hq with hmem | hmem
    · exact hdb q hmem
    · have : q = (k, r) := by simpa using hmem
      rw [this]
      exact hr

theorem keyConsistent_updateUser (db : DB) (e : String) (p : Patch)
    (hdb : keyConsistent db) (hp : p.email = none) :
    keyConsistent (updateUser db e p) := by
  apply keyConsistent_setUser db e _ hdb
  have hc : ((findUser db e).getD (defaultUser e)).email = e := by
    cases hfind : db.find? (fun q => q.1 == e) with
    | none => simp [findUser, hfind, defaultUser]
    | some q0 =>
      have hmem := List.mem_of_find?_eq_some hfind
      have hkey := List.find?_some hfind
      simp only [beq_iff_eq] at hkey
      have hq0 := hdb q0 hmem
      have hfu : findUser db e = some q0.2 := by
        rw [findUser, hfind]
        rfl
      rw [hfu, Option.getD_some, hq0]
      exact hkey
  simp [applyPatch, hp, hc]

theorem applyOps_keyConsistent (ops : List (String × Patch)) :
    ∀ db : DB, keyConsistent db → (∀ op ∈ ops, (op.2).email = none) →
    keyConsistent (applyOps ops db) := by
  induction ops with
  | nil =>
    intro db hdb _
    simpa [applyOps] using hdb
  | cons op rest ih =>
    intro db hdb hops
    simp only [applyOps, List.foldl_cons]
    have hstep := keyConsistent_updateUser db op.1 op.2 hdb (hops op (by simp))
    have hrest : ∀ o ∈ rest, (o.2).email = none := fun o ho => hops o (by simp [ho])
    simpa [applyOps] using ih (updateUser db op.1 op.2) hstep hrest

/-- C10: starting from the empty snapshot, after any sequence of
updateUser calls in which no patch names the email field, every record
stored under key k in the users map has its email field equal to k. -/
theorem updateUser_key_record_consistency (ops : List (String × Patch))
    (hops : ∀ op ∈ ops, (op.2).email = none) :
    keyConsistent (applyOps ops []) := by
  apply applyOps_keyConsistent ops [] _ hops
  intro q hq
  cases hq

/-- Witness for C10 at a concrete three-step update sequence. -/
theorem updateUser_key_record_consistency_witness :
    keyConsistent (applyOps
      [("a@x.com", { is_premium := some true, stripe_customer_id := some (some "cus_1") }),
       ("b@y.com", { grace_until := some (some 3) }),
       ("a@x.com", { is_premium := some false })] []) :=
  updateUser_key_record_consistency _ (by decide)

/-! ### Claim theorems -/

/-- C1: when constructEvent throws for an inbound webhook request (the
signature header is missing or fails verification against the signing
secret), the handler answers with client error 400, the store state
(σ covers the local cache file and the authoritative store alike) is
returned unchanged, and the event dispatcher is never invoked: the
response is the same whatever dispatcher is installed. -/
theorem webhook_rejects_unverified {σ E : Type}
    (constructEvent : Option String → String → Option E)
    (dispatch : E → σ → Nat × σ) (sig : Option String) (body : String) (s : σ)
    (h : constructEvent sig body = none) :
    webhookPost constructEvent dispatch sig body s = (400, s) := by
  simp [webhookPost, h]

/-- Witness for C1: a concrete request with a missing signature header
against an always-failing verifier is answered 400 with the store
untouched. -/
theorem webhook_rejects_unverified_witness :
    @webhookPost DB Unit (fun _ _ => none) (fun _ s => (200, s)) none "payload" [] = (400, []) :=
  webhook_rejects_unverified (fun _ _ => none) (fun _ s => (200, s)) none "payload" [] rfl

/-- C2: statusIsPremium is a total Lean function returning a boolean;
it returns true exactly on active, trialing and the past_due grace
status, and false on every other status string. -/
theorem statusIsPremium_total_spec (s : String) :
    (statusIsPremium s = true ↔ (s = "active" ∨ s = "trialing" ∨ s = "past_due")) ∧
    (s ≠ "active" → s ≠ "trialing" → s ≠ "past_due" → statusIsPremium s = false) := by
  constructor
  · simp [statusIsPremium, premiumStatuses]
  · intro h1 h2 h3
    simp [statusIsPremium, premiumStatuses, h1, h2, h3]

/-- Witness for C2 at the grace status and at an unknown future status. -/
theorem statusIsPremium_total_spec_witness :
    statusIsPremium "past_due" = true ∧ statusIsPremium "some_future_status" = false :=
  ⟨(statusIsPremium_total_spec "past_due").1.mpr (Or.inr (Or.inr rfl)),
   (statusIsPremium_total_spec "some_future_status").2 (by decide) (by decide) (by decide)⟩

/-- C3: the inline status mappings of the second-revision webhook, the
third-revision webhook and the unnamed variant webhook diverge from the
canonical translator statusIsPremium on the grace status past_due
(they return false where statusIsPremium returns true), while the
confirm-session inline copy agrees with statusIsPremium on every
status string. -/
theorem inline_mapping_divergence :
    statusIsPremium "past_due" = true ∧
    inlineWebhookPremiumRev2 "past_due" = false ∧
    inlineWebhookPremiumRev3 "past_due" = false ∧
    inlineWebhookPremiumPart0 "past_due" = false ∧
    (∀ s : String, confirmSessionPremium s = statusIsPremium s) :=
  ⟨rfl, rfl, rfl, rfl, fun _ => rfl⟩

/-- An event carrying both a correlation token and a customer email,
used to settle C4. -/
def c4Obj : EventObject where
  customer_details_email := some "user@example.com"
  client_reference_id := some "tok_mobile_7"

/-- C4 counterexample: the first-revision checkout.session.completed
resolver, given an event carrying both a correlation token and an
email, selects the email and not the token. -/
theorem resolver_prefers_email_counterexample :
    c4Obj.client_reference_id = some "tok_mobile_7" ∧
    c4Obj.customer_details_email = some "user@example.com" ∧
    resolveCheckoutRev1 [] c4Obj = some "user@example.com" ∧
    resolveCheckoutRev1 [] c4Obj ≠ some "tok_mobile_7" := by
  refine ⟨rfl, rfl, by decide, by decide⟩

/-- C4 amended: the third-revision and unnamed-variant webhook
resolvers select the token when an event carries both a (truthy)
correlation token and an email; the first-revision checkout-completed
resolver instead selects the customer-details email, for every cache
state. -/
theorem resolver_token_priority_amended (o : EventObject) (t e : String)
    (ht : o.client_reference_id = some t) (hT : t ≠ "")
    (he : o.customer_details_email = some e) (hE : e ≠ "") :
    resolveRev3 o = UpdateTarget.byId t ∧
    resolvePart0 o = UpdateTarget.byId t ∧
    ∀ db : DB, resolveCheckoutRev1 db o = some e := by
  refine ⟨?_, ?_, ?_⟩
  · simp [resolveRev3, jsStr, ht, hT]
  · simp [resolvePart0, jsStr, ht, hT]
  · intro db
    simp [resolveCheckoutRev1, jsOr, jsStr, he, hE]

/-- Witness for C4 amended at the concrete dual-identity event. -/
theorem resolver_token_priority_amended_witness :
    resolveRev3 c4Obj = UpdateTarget.byId "tok_mobile_7" ∧
    resolvePart0 c4Obj = UpdateTarget.byId "tok_mobile_7" ∧
    resolveCheckoutRev1 [] c4Obj = some "user@example.com" := by
  obtain ⟨h1, h2, h3⟩ := resolver_token_priority_amended c4Obj "tok_mobile_7" "user@example.com"
    rfl (by decide) rfl (by decide)
  exact ⟨h1, h2, h3 []⟩

/-- The prior record of the identity used to settle C5. -/
def c5rec : UserRecord where
  email := "u@x.com"
  is_premium := true
  current_period_end := some 1700000000000
  stripe_customer_id := some "cus_9"
  stripe_subscription_id := some "sub_9"
  grace_until := none

/-- A one-user cache whose stored customer id is cus_9. -/
def c5db : DB := [("u@x.com", c5rec)]

/-- A subscription-deleted event object carrying customer cus_9 and the
metadata email of the same identity. -/
def c5ObjRev2 : EventObject where
  metadata_user_email := some "u@x.com"
  customer := some "cus_9"

/-- C5 counterexample: in the second-revision webhook, handling a
subscription-deleted event for a resolvable identity whose prior record
has current_period_end 1700000000000 leaves current_period_end at that
prior value instead of null (is_premium is still forced to false). -/
theorem subscription_deleted_counterexample :
    (findUser (webhookDeletedRev2 c5db c5ObjRev2) "u@x.com").map UserRecord.current_period_end
      = some (some 1700000000000) ∧
    (findUser (webhookDeletedRev2 c5db c5ObjRev2) "u@x.com").map UserRecord.is_premium
      = some false := by
  refine ⟨by decide, by decide⟩

/-- C5 amended: the first-revision deleted branch yields is_premium
false with both the subscription id and the period end null, for every
prior record state; the second-revision deleted patch yields is_premium
false and a null subscription id but leaves current_period_end at its
prior value. -/
theorem subscription_deleted_amended (db : DB) (o : EventObject) (email : String)
    (r : UserRecord)
    (hres : reverseLookupEmail db o.customer = some email)
    (hr : findUser db email = some r) :
    findUser (subscriptionDeletedRev1 db o) email =
      some { r with is_premium := false, current_period_end := none,
                    stripe_subscription_id := none } ∧
    ∀ r' : UserRecord, applyPatch r' deletedPatchRev2 =
      { r' with is_premium := false, stripe_subscription_id := none } := by
  constructor
  · have hstep : subscriptionDeletedRev1 db o = updateUser db email deletedPatchRev1 := by
      unfold subscriptionDeletedRev1
      rw [hres]
    rw [hstep, updateUser, hr, Option.getD_some, findUser_setUser]
    rfl
  · intro r'
    rfl

/-- Witness for C5 amended at the concrete one-user cache. -/
theorem subscription_deleted_amended_witness :
    findUser (subscriptionDeletedRev1 c5db { customer := some "cus_9" }) "u@x.com" =
      some { c5rec with is_premium := false, current_period_end := none,
                        stripe_subscription_id := none } :=
  (subscription_deleted_amended c5db { customer := some "cus_9" } "u@x.com" c5rec
    (by decide) (by decide)).1

/-- C7: for every payment-failure event whose customer id reverse-looks
up to a known identity holding record r, the resulting record is r with
grace_until set to now plus exactly 3 days in milliseconds and every
other field (in particular is_premium) equal to its prior value. -/
theorem payment_failed_grace_frame (db : DB) (o : EventObject) (now : Int)
    (email : String) (r : UserRecord)
    (hres : reverseLookupEmail db o.customer = some email)
    (hr : findUser db email = some r) :
    findUser (invoicePaymentFailedRev1 db o now) email =
      some { r with grace_until := some (now + 3 * 24 * 3600 * 1000) } := by
  have hstep : invoicePaymentFailedRev1 db o now =
      updateUser db email { grace_until := some (some (now + graceWindowMs)) } := by
    unfold invoicePaymentFailedRev1
    rw [hres]
  rw [hstep, updateUser, hr, Option.getD_some, findUser_setUser]
  rfl

/-- The prior record of the identity used for the C7 witness. -/
def c7rec : UserRecord where
  email := "g@x.com"
  is_premium := true
  current_period_end := some 42
  stripe_customer_id := some "cus_7"
  stripe_subscription_id := some "sub_7"
  grace_until := none

/-- Witness for C7 at a concrete one-user cache and now = 1000. -/
theorem payment_failed_grace_frame_witness :
    findUser (invoicePaymentFailedRev1 [("g@x.com", c7rec)] { customer := some "cus_7" } 1000)
        "g@x.com" =
      some { c7rec with grace_until := some (1000 + 3 * 24 * 3600 * 1000) } :=
  payment_failed_grace_frame [("g@x.com", c7rec)] { customer := some "cus_7" } 1000
    "g@x.com" c7rec (by decide) (by decide)

/-- The record stored in the cache file used to settle C8. -/
def c8rec : UserRecord where
  email := "a@x.com"
  is_premium := true
  current_period_end := some 99
  stripe_customer_id := some "cus_1"
  stripe_subscription_id := some "sub_1"
  grace_until := none

/-- A concrete parse (JSON.parse plus the users field) that succeeds
exactly on the file text GOODFILE. -/
def c8parse : String → Option DB :=
  fun t => if t = "GOODFILE" then some [("a@x.com", c8rec)] else none

/-- C8 counterexample: the GET status response for the same identity
changes when only the local cache file changes (present file versus
absent file), so the response is derived from the local file-backed
cache, refuting that it is never derived from it. -/
theorem status_reads_cache_counterexample :
    statusHandler (some "a@x.com") (some "GOODFILE") c8parse = Except.ok (some c8rec) ∧
    statusHandler (some "a@x.com") none c8parse = Except.ok none := by
  refine ⟨rfl, rfl⟩

/-- C8 amended: the GET status response for any identity is exactly the
record found in the readDB snapshot of the local file-backed cache (the
revision defining the status route has no other store, and the handler
consults nothing besides that snapshot). -/
theorem status_from_local_cache_amended (e : String) (he : e ≠ "")
    (file : Option String) (parse : String → Option DB) :
    statusHandler (some e) file parse = Except.ok (findUser (readDB file parse) e) := by
  simp [statusHandler, jsStr, he]

/-- Witness for C8 amended at the concrete cache file. -/
theorem status_from_local_cache_amended_witness :
    statusHandler (some "a@x.com") (some "GOODFILE") c8parse =
      Except.ok (findUser (readDB (some "GOODFILE") c8parse) "a@x.com") :=
  status_from_local_cache_amended "a@x.com" (by decide) (some "GOODFILE") c8parse

/-- C9: readDB returns the empty snapshot, without any failure path,
when the backing file is absent, when its text is empty or
whitespace-only, and when the parse fails (JSON.parse throws); the
second-revision readDB behaves the same on the absent file and the
failing parse. -/
theorem readDB_resilient (parse : String → Option DB) (txt bad : String)
    (hws : blankText txt = true) (hbad : parse bad = none) :
    readDB none parse = [] ∧ readDB (some txt) parse = [] ∧
    readDB (some bad) parse = [] ∧
    readDBRev2 none parse = [] ∧ readDBRev2 (some bad) parse = [] := by
  refine ⟨rfl, ?_, ?_, rfl, ?_⟩
  · simp [readDB, hws]
  · by_cases h : blankText bad = true
    · simp [readDB, h]
    · simp [readDB, h, hbad]
  · by_cases h : bad = ""
    · simp [readDBRev2, h]
    · simp [readDBRev2, h, hbad]

/-- Witness for C9 at an absent file, a whitespace-only file and a
malformed file against an always-failing parse. -/
theorem readDB_resilient_witness :
    readDB none (fun _ => none) = [] ∧ readDB (some "   ") (fun _ => none) = [] ∧
    readDB (some "not-json") (fun _ => none) = [] ∧
    readDBRev2 none (fun _ => none) = [] ∧
    readDBRev2 (some "not-json") (fun _ => none) = [] :=
  readDB_resilient (fun _ => none) "   " "not-json" (by decide) rfl

end IseehaloWeb
